import Mathlib

/-!
Shallow embedding of the reproducible core of the courtedge-ai-demo
repository: the Chat Session Controller (the `handleSendMessage` handler and
its state in `OktaSystemLog.tsx`) and the Agent Flow Renderer (the
`AgentFlowCard` component).  JavaScript dynamic values reachable through
`response.json()` are modelled by `JsValue`; JavaScript truthiness of the
strings and optional fields involved is modelled explicitly at each use site.
-/

mutual
/-- A JavaScript value as produced by `JSON.parse` (via `response.json()`),
extended with `undefined` for the result of reading an absent property.  Objects
carry an association list of fields with distinct keys (as produced by
`JSON.parse`). -/
inductive JsValue where
  | undefined : JsValue
  | null : JsValue
  | boolean (b : Bool) : JsValue
  | num (n : Int) : JsValue
  | str (s : String) : JsValue
  | obj (fields : JsFields) : JsValue
deriving DecidableEq, Repr
inductive JsFields where
  | nil : JsFields
  | cons (key : String) (val : JsValue) (rest : JsFields) : JsFields
deriving DecidableEq, Repr
end

/-- Field lookup in an object literal. -/
def JsFields.get? (name : String) : JsFields → Option JsValue
  | .nil => none
  | .cons k v rest => if k == name then some v else rest.get? name

/-- JavaScript property read `v[name]` for an ordinary (non-special) property
name such as "content": reading from `null` or `undefined` throws a
TypeError (modelled as `Except.error`); reading a missing property of an
object, or any ordinary property of a number, boolean or string, yields
`undefined`. -/
def JsValue.getMember (v : JsValue) (name : String) : Except String JsValue :=
  match v with
  | .undefined => .error "TypeError"
  | .null => .error "TypeError"
  | .obj fields =>
      .ok (match fields.get? name with
           | some w => w
           | none => .undefined)
  | _ => .ok .undefined

/-- One entry of the `chatMessages` array: `{ role, content }`.  The user
role always carries a string; the assistant role carries whatever
`data.content` evaluated to, hence a `JsValue`. -/
structure ChatMessage where
  role : String
  content : JsValue
deriving DecidableEq, Repr

/-- The Chat Session Controller state: `chatMessages`, the input `message`
draft, and the `isLoading` flag. -/
structure ChatState where
  messages : List ChatMessage
  draft : String
  pending : Bool
deriving DecidableEq, Repr

/-- The one network request `handleSendMessage` may issue: body
`{ message }` plus the bearer credential placed in the Authorization
header. -/
structure ChatRequest where
  message : String
  bearer : String
deriving DecidableEq, Repr

/-- Outcome of the `fetch` call: the promise rejects (network error), or an
HTTP response arrives whose body either fails to parse (`response.json()`
rejects, modelled `none`) or parses to a `JsValue` (never `undefined`). -/
inductive FetchResult where
  | networkError : FetchResult
  | response (body : Option JsValue) : FetchResult
deriving DecidableEq, Repr

/-- JavaScript truthiness of `session?.idToken`: falsy when there is no
session / no idToken, and also when the token is the empty string. -/
def tokenTruthy : Option String → Bool
  | none => false
  | some s => !(s == "")

/-- The fixed fallback text appended on the catch path. -/
def fallbackText : String := "Sorry, I encountered an error. Please try again."

/-- The trim performed by `message.trim()`: whitespace removed from both
ends, modelled structurally over the character list. -/
def jsTrim (s : String) : String :=
  ⟨((s.data.dropWhile Char.isWhitespace).reverse.dropWhile
      Char.isWhitespace).reverse⟩

/-- The synchronous prefix of `handleSendMessage`, up to and including the
issuing of the fetch request: the guard
`if (!message.trim() || !session?.idToken) return;`, then
`setMessage("")`, the append of the user message, `setIsLoading(true)` and
the construction of the request.  Returns the state as it stands when the
request is issued, and the request itself (`none` when the guard returned
early and no request is issued). -/
def submitStart (st : ChatState) (idToken : Option String) :
    ChatState × Option ChatRequest :=
  if jsTrim st.draft == "" || !(tokenTruthy idToken) then (st, none)
  else
    let userMessage := jsTrim st.draft
    ({ messages := st.messages ++ [⟨"user", .str userMessage⟩],
       draft := "",
       pending := true },
     some ⟨userMessage, idToken.getD ""⟩)

/-- The continuation of `handleSendMessage` once the fetch settles: the
try/catch/finally.  Success reads `data.content` (which itself can throw,
for a `null` body) and appends the assistant message; every caught
exception appends the fixed fallback message; `finally` clears
`isLoading`. -/
def submitFinish (st : ChatState) (res : FetchResult) : ChatState :=
  match res with
  | .networkError =>
      { st with messages := st.messages ++ [⟨"assistant", .str fallbackText⟩],
                pending := false }
  | .response none =>
      { st with messages := st.messages ++ [⟨"assistant", .str fallbackText⟩],
                pending := false }
  | .response (some body) =>
      match body.getMember "content" with
      | .error _ =>
          { st with messages := st.messages ++ [⟨"assistant", .str fallbackText⟩],
                    pending := false }
      | .ok c =>
          { st with messages := st.messages ++ [⟨"assistant", c⟩],
                    pending := false }

/-- The whole of `handleSendMessage`, parameterised by the outcome the fetch
would have: when the guard fails no request is issued and the fetch outcome
is irrelevant; otherwise the synchronous prefix runs and then the
continuation consumes the outcome.  Totality of this function reflects that
the try/catch/finally lets no exception escape the handler. -/
def submit (st : ChatState) (idToken : Option String) (res : FetchResult) :
    ChatState :=
  match submitStart st idToken with
  | (st1, none) => st1
  | (st1, some _) => submitFinish st1 res

/-- One record of the `steps` prop of `AgentFlowCard`. -/
structure AgentFlowStep where
  step : String
  action : String
  status : String
  color : Option String
  agents : Option (List String)
deriving DecidableEq, Repr

/-- The `agentSteps` filter at the top of `AgentFlowCard` (computed by the
component; the badge rendering below reads the unfiltered list). -/
def agentSteps (steps : List AgentFlowStep) : List AgentFlowStep :=
  steps.filter fun s =>
    (s.step.splitOn "agent").length > 1 || s.step == "router" ||
      s.step == "generate_response"

/-- The `routingStep` lookup: `steps.find(s => s.step === "router" && s.agents)`.
An empty `agents` array is truthy in JavaScript, so the condition is only
that the field is present. -/
def routingStep (steps : List AgentFlowStep) : Option AgentFlowStep :=
  steps.find? fun s => s.step == "router" && s.agents.isSome

/-- `involvedAgents = routingStep?.agents || []`. -/
def involvedAgents (steps : List AgentFlowStep) : List String :=
  ((routingStep steps).bind (fun s => s.agents)).getD []

/-- The per-participant status resolution inside the render loop:
`const agentStep = steps.find(s => s.step === agent + "_agent");` then
`const status = agentStep?.status || (isInvolved ? "pending" : "inactive");`
The empty string is falsy in JavaScript, so a present step whose status is
`""` also falls through to the involvement fallback. -/
def resolvedStatus (steps : List AgentFlowStep) (agent : String) : String :=
  let fb := if (involvedAgents steps).contains agent then "pending"
            else "inactive"
  match steps.find? (fun s => s.step == agent ++ "_agent") with
  | some s => if s.status == "" then fb else s.status
  | none => fb

/-- The `agentColors` record. -/
def agentColors : String → Option String
  | "sales" => some "#3b82f6"
  | "inventory" => some "#10b981"
  | "customer" => some "#8b5cf6"
  | "pricing" => some "#f59e0b"
  | _ => none

/-- The `agentIcons` record. -/
def agentIcons : String → Option String
  | "sales" => some "S"
  | "inventory" => some "I"
  | "customer" => some "C"
  | "pricing" => some "P"
  | _ => none

/-- The status-dependent tail of the badge className ternary chain. -/
def agentStyleClass (status : String) : String :=
  if status == "completed" then "text-white shadow-lg"
  else if status == "denied" then "text-white opacity-75"
  else if status == "pending" then "text-white animate-pulse"
  else "bg-gray-200 text-gray-400"

/-- The inline style:
`backgroundColor: status !== "inactive" ? agentColors[agent] : undefined`. -/
def agentBackgroundColor (agent status : String) : Option String :=
  if status == "inactive" then none else agentColors agent

/-- The glyph rendered inside the badge: one of the four status-guarded
children, or nothing when none of the guards match. -/
def agentIcon (agent status : String) : Option String :=
  if status == "completed" then some "CheckCircle"
  else if status == "denied" then some "XCircle"
  else if status == "pending" then some "Clock"
  else if status == "inactive" then agentIcons agent
  else none

/-- Everything status-dependent about one participant badge. -/
structure AgentBadge where
  styleClass : String
  backgroundColor : Option String
  icon : Option String
deriving DecidableEq, Repr

/-- The badge a participant with the given resolved status is rendered
with. -/
def renderStatusBadge (agent status : String) : AgentBadge :=
  ⟨agentStyleClass status, agentBackgroundColor agent status,
   agentIcon agent status⟩

/-- The badge rendered for a participant given the input step sequence. -/
def renderAgent (steps : List AgentFlowStep) (agent : String) : AgentBadge :=
  renderStatusBadge agent (resolvedStatus steps agent)

/-- `steps.some(s => s.step === "generate_response" && s.status === "completed")`. -/
def responseCompleted (steps : List AgentFlowStep) : Bool :=
  steps.any fun s => s.step == "generate_response" && s.status == "completed"

/-- The className of the terminal response box. -/
def responseClass (steps : List AgentFlowStep) : String :=
  if responseCompleted steps then "bg-success-green text-white"
  else "bg-gray-200 text-gray-400"

/-- The four fixed participants, in display order. -/
def fixedAgents : List String := ["sales", "inventory", "customer", "pricing"]

/-- The complete derived view of `AgentFlowCard` for a given input step
sequence: the involved set, the four participant badges in display order,
and the response stage class. -/
structure FlowView where
  involved : List String
  badges : List (String × AgentBadge)
  response : String
deriving DecidableEq, Repr

/-- The full derived view as a function of the input step sequence. -/
def agentFlowView (steps : List AgentFlowStep) : FlowView :=
  { involved := involvedAgents steps,
    badges := fixedAgents.map fun a => (a, renderAgent steps a),
    response := responseClass steps }

/-- A parsed response body `{content: 42}`: it has a content field, but not
a string one. -/
def c3Body : JsValue := .obj (.cons "content" (.num 42) .nil)

/-- A parsed response body `{content: "Hi there"}`. -/
def hiThereBody : JsValue := .obj (.cons "content" (.str "Hi there") .nil)

/-- A step sequence whose only sales step carries the unrecognized status
"running". -/
def c5Input : List AgentFlowStep :=
  [⟨"sales_agent", "query", "running", none, none⟩]

/-- Two router steps both carrying a participant list, the first one empty,
the second one non-empty. -/
def c6StepA : AgentFlowStep := ⟨"router", "routing", "completed", none, some []⟩

/-- The second router step of the `c6Input` sequence. -/
def c6StepB : AgentFlowStep :=
  ⟨"router", "routing", "completed", none, some ["sales"]⟩

/-- A sequence with an empty-set router step before a non-empty-set router
step. -/
def c6Input : List AgentFlowStep := [c6StepA, c6StepB]

/-- The worked example of the spec: router completed with participants
sales and inventory, and a completed sales step. -/
def c7Example : List AgentFlowStep :=
  [⟨"router", "routing", "completed", none, some ["sales", "inventory"]⟩,
   ⟨"sales_agent", "query", "completed", none, none⟩]

/-- A sequence whose sales step is present but carries the empty status,
while sales is an involved participant. -/
def c7Bad : List AgentFlowStep :=
  [⟨"router", "routing", "completed", none, some ["sales"]⟩,
   ⟨"sales_agent", "query", "", none, none⟩]

/-- A router step with participant inventory, for instantiating the
first-match characterization. -/
def c6WitnessStep : AgentFlowStep :=
  ⟨"router", "routing", "completed", none, some ["inventory"]⟩

/-- The first of two router steps both carrying participant lists. -/
def c10R1 : AgentFlowStep :=
  ⟨"router", "routing", "completed", none, some ["customer"]⟩

/-- The second of two router steps both carrying participant lists. -/
def c10R2 : AgentFlowStep :=
  ⟨"router", "routing", "completed", none, some ["pricing"]⟩

/-- A sequence containing a completed generate_response step. -/
def c8Input : List AgentFlowStep :=
  [⟨"generate_response", "final", "completed", none, none⟩]

/-- A small concrete run for instantiating determinism. -/
def c9Input : List AgentFlowStep :=
  [⟨"router", "routing", "completed", none, some ["sales"]⟩,
   ⟨"sales_agent", "query", "denied", none, none⟩]

/-- C1: when the draft trims to the empty string or no (truthy) session
credential is present, submit is a no-op: the state (messages, draft,
pending) is returned unchanged and no request is issued. -/
theorem c1_submit_noop (st : ChatState) (idToken : Option String)
    (res : FetchResult)
    (h : jsTrim st.draft = "" ∨ tokenTruthy idToken = false) :
    submit st idToken res = st ∧ (submitStart st idToken).2 = none := by
  have hcond : (jsTrim st.draft == "" || !(tokenTruthy idToken)) = true := by
    rcases h with h | h
    · simp [h]
    · simp [h]
  constructor
  · unfold submit submitStart
    rw [if_pos hcond]
  · unfold submitStart
    rw [if_pos hcond]

/-- Witness for C1: the whitespace-only draft "   " with a valid credential
is rejected without any state change or request. -/
theorem c1_submit_noop_witness :
    jsTrim "   " = "" ∧
      (submit ⟨[], "   ", false⟩ (some "tok") .networkError = ⟨[], "   ", false⟩ ∧
        (submitStart ⟨[], "   ", false⟩ (some "tok")).2 = none) :=
  ⟨by decide, c1_submit_noop ⟨[], "   ", false⟩ (some "tok") .networkError
      (Or.inl (by decide))⟩

/-- C2: when the draft is non-empty after trimming and a session credential
is present, the synchronous prefix of submit appends exactly one user
ChatMessage holding the trimmed draft, clears the draft and sets pending,
and only then is the single request (trimmed text plus bearer credential)
issued: the returned request is produced together with the already-updated
state. -/
theorem c2_submit_appends_user_before_request (st : ChatState)
    (idToken : Option String)
    (h1 : jsTrim st.draft ≠ "") (h2 : tokenTruthy idToken = true) :
    (submitStart st idToken).1.messages
        = st.messages ++ [⟨"user", JsValue.str (jsTrim st.draft)⟩] ∧
      (submitStart st idToken).1.draft = "" ∧
      (submitStart st idToken).1.pending = true ∧
      (submitStart st idToken).2 = some ⟨jsTrim st.draft, idToken.getD ""⟩ := by
  have hcond : (jsTrim st.draft == "" || !(tokenTruthy idToken)) = false := by
    simp [h2, h1]
  unfold submitStart
  rw [if_neg (by simp [hcond])]
  exact ⟨rfl, rfl, rfl, rfl⟩

/-- Witness for C2: submitting the draft " Hello " with a credential
appends the user message "Hello" and issues the request before any
response is consumed. -/
theorem c2_submit_appends_user_before_request_witness :
    jsTrim " Hello " ≠ "" ∧ tokenTruthy (some "tok") = true ∧
      ((submitStart ⟨[], " Hello ", false⟩ (some "tok")).1.messages
          = [] ++ [⟨"user", JsValue.str (jsTrim " Hello ")⟩] ∧
        (submitStart ⟨[], " Hello ", false⟩ (some "tok")).1.draft = "" ∧
        (submitStart ⟨[], " Hello ", false⟩ (some "tok")).1.pending = true ∧
        (submitStart ⟨[], " Hello ", false⟩ (some "tok")).2
          = some ⟨jsTrim " Hello ", (some "tok").getD ""⟩) :=
  ⟨by decide, by decide,
    c2_submit_appends_user_before_request ⟨[], " Hello ", false⟩ (some "tok")
      (by decide) (by decide)⟩

/-- C3 counterexample: the backend call resolves with the parseable JSON
body `{content: 42}`, which carries no string content field, yet the
appended assistant message has content 42, not undefined. -/
theorem c3_counterexample :
    submit ⟨[], "Hi", false⟩ (some "tok") (.response (some c3Body))
        = ⟨[⟨"user", .str "Hi"⟩, ⟨"assistant", .num 42⟩], "", false⟩ ∧
      JsValue.num 42 ≠ JsValue.undefined := by decide

/-- C3 amended: when the guard passes and the fetch resolves with a
parseable JSON body on which reading the content member succeeds (any body
other than null), exactly one assistant ChatMessage is appended whose
content is that member value — undefined when the field is absent or the
body is not an object, and otherwise the field value of whatever type —
and pending is false afterwards. -/
theorem c3_submit_success_appends_content (st : ChatState)
    (idToken : Option String) (body c : JsValue)
    (h1 : jsTrim st.draft ≠ "") (h2 : tokenTruthy idToken = true)
    (h3 : body.getMember "content" = Except.ok c) :
    submit st idToken (.response (some body))
      = { messages := st.messages
            ++ [⟨"user", JsValue.str (jsTrim st.draft)⟩, ⟨"assistant", c⟩],
          draft := "", pending := false } := by
  have hcond : (jsTrim st.draft == "" || !(tokenTruthy idToken)) = false := by
    simp [h2, h1]
  unfold submit submitStart
  rw [if_neg (by simp [hcond])]
  simp [submitFinish, h3]

/-- Witness for C3 amended: the spec example body `{content: "Hi there"}`
appends exactly one assistant message with that text, after the user
message, with pending false. -/
theorem c3_submit_success_appends_content_witness :
    jsTrim "Hello" ≠ "" ∧ tokenTruthy (some "tok") = true ∧
      hiThereBody.getMember "content" = Except.ok (.str "Hi there") ∧
      submit ⟨[], "Hello", false⟩ (some "tok") (.response (some hiThereBody))
        = { messages :=
              [] ++ [⟨"user", JsValue.str (jsTrim "Hello")⟩,
                     ⟨"assistant", .str "Hi there"⟩],
            draft := "", pending := false } :=
  ⟨by decide, by decide, by rfl,
    c3_submit_success_appends_content ⟨[], "Hello", false⟩ (some "tok")
      hiThereBody (.str "Hi there") (by decide) (by decide) (by rfl)⟩

/-- C4: when the guard passes and the fetch rejects with a network error or
the response body is unparseable, exactly one assistant ChatMessage with
the fixed fallback text is appended (after the user message) and pending is
false afterwards; `submit` being a total function, no exception escapes the
handler. -/
theorem c4_submit_failure_appends_fallback (st : ChatState)
    (idToken : Option String) (res : FetchResult)
    (h1 : jsTrim st.draft ≠ "") (h2 : tokenTruthy idToken = true)
    (h3 : res = .networkError ∨ res = .response none) :
    submit st idToken res
      = { messages := st.messages
            ++ [⟨"user", JsValue.str (jsTrim st.draft)⟩,
                ⟨"assistant", .str fallbackText⟩],
          draft := "", pending := false } := by
  have hcond : (jsTrim st.draft == "" || !(tokenTruthy idToken)) = false := by
    simp [h2, h1]
  unfold submit submitStart
  rw [if_neg (by simp [hcond])]
  rcases h3 with rfl | rfl
  · unfold submitFinish
    simp
  · unfold submitFinish
    simp

/-- Witness for C4: a network error after submitting "Hello" leaves the
user message followed by the fixed fallback assistant message, with
pending false. -/
theorem c4_submit_failure_appends_fallback_witness :
    jsTrim "Hello" ≠ "" ∧ tokenTruthy (some "tok") = true ∧
      submit ⟨[], "Hello", false⟩ (some "tok") .networkError
        = { messages :=
              [] ++ [⟨"user", JsValue.str (jsTrim "Hello")⟩,
                     ⟨"assistant", .str fallbackText⟩],
            draft := "", pending := false } :=
  ⟨by decide, by decide,
    c4_submit_failure_appends_fallback ⟨[], "Hello", false⟩ (some "tok")
      .networkError (by decide) (by decide) (Or.inl rfl)⟩

/-- Helper: find? skips a prefix on which it returns none. -/
theorem find?_append_none {α : Type} (p : α → Bool) (pre post : List α)
    (h : pre.find? p = none) : (pre ++ post).find? p = post.find? p := by
  induction pre with
  | nil => rfl
  | cons a t ih =>
    cases hpa : p a with
    | true =>
      rw [List.find?_cons_of_pos _ hpa] at h
      exact absurd h (by simp)
    | false =>
      rw [List.find?_cons_of_neg _ (by simp [hpa])] at h
      rw [List.cons_append, List.find?_cons_of_neg _ (by simp [hpa])]
      exact ih h

/-- Helper: the routing-step search returns none on a list without a router
step carrying a participant list. -/
theorem routerFind_none (steps : List AgentFlowStep)
    (h : ∀ t ∈ steps, t.step = "router" → t.agents = none) :
    steps.find? (fun t => t.step == "router" && t.agents.isSome) = none := by
  rw [List.find?_eq_none]
  intro t ht hcontra
  simp only [Bool.and_eq_true, beq_iff_eq] at hcontra
  obtain ⟨h1, h2⟩ := hcontra
  rw [h t ht h1] at h2
  simp at h2

/-- Helper: the involved set is the participant list of the first router
step that carries one. -/
theorem involved_of_first (pre post : List AgentFlowStep) (s : AgentFlowStep)
    (l : List String) (hs : s.step = "router") (ha : s.agents = some l)
    (hpre : ∀ t ∈ pre, t.step = "router" → t.agents = none) :
    involvedAgents (pre ++ s :: post) = l := by
  unfold involvedAgents routingStep
  rw [find?_append_none _ _ _ (routerFind_none pre hpre)]
  rw [List.find?_cons_of_pos _ (by simp [hs, ha])]
  simp [ha]

/-- C6 counterexample: in a sequence whose first router step carries the
empty participant list and whose second router step carries ["sales"], the
unique step with identifier router and a non-empty participant set is the
second one, yet the involved set is [] and not ["sales"]: the lookup keys
on presence of the field (truthy in JavaScript even when empty), not on
non-emptiness. -/
theorem c6_counterexample :
    involvedAgents c6Input = [] ∧
      (c6Input.filter fun s =>
          s.step == "router" && !(s.agents.getD []).isEmpty) = [c6StepB] ∧
      c6StepB.agents = some ["sales"] ∧ ([] : List String) ≠ ["sales"] := by
  decide

/-- C6 amended: the involved-participant set equals the participant set of
the first step in sequence order whose identifier is "router" and which
carries a participant set (present, possibly empty); if no router step
carries one, the involved set is empty. -/
theorem c6_involved_is_first_router_with_field :
    (∀ steps : List AgentFlowStep,
        (∀ t ∈ steps, t.step = "router" → t.agents = none) →
          involvedAgents steps = []) ∧
    (∀ (pre post : List AgentFlowStep) (s : AgentFlowStep) (l : List String),
        s.step = "router" → s.agents = some l →
        (∀ t ∈ pre, t.step = "router" → t.agents = none) →
          involvedAgents (pre ++ s :: post) = l) := by
  constructor
  · intro steps h
    unfold involvedAgents routingStep
    rw [routerFind_none steps h]
    rfl
  · intro pre post s l hs ha hpre
    exact involved_of_first pre post s l hs ha hpre

/-- Witness for C6 amended: a single router step with participant list
["inventory"] yields exactly that involved set. -/
theorem c6_involved_is_first_router_with_field_witness :
    c6WitnessStep.step = "router" ∧ c6WitnessStep.agents = some ["inventory"] ∧
      involvedAgents ([] ++ c6WitnessStep :: []) = ["inventory"] :=
  ⟨rfl, rfl,
    c6_involved_is_first_router_with_field.2 [] [] c6WitnessStep ["inventory"]
      rfl rfl (by simp)⟩

/-- C10: when more than one router step carries a participant list, the
involved set is taken from the first such step in sequence order; the later
router step never influences it. -/
theorem c10_first_router_wins (pre mid post : List AgentFlowStep)
    (r1 r2 : AgentFlowStep) (l1 l2 : List String)
    (h1 : r1.step = "router") (h2 : r1.agents = some l1)
    (h3 : r2.step = "router") (h4 : r2.agents = some l2)
    (hpre : ∀ t ∈ pre, t.step = "router" → t.agents = none) :
    involvedAgents (pre ++ r1 :: (mid ++ r2 :: post)) = l1 :=
  involved_of_first pre (mid ++ r2 :: post) r1 l1 h1 h2 hpre

/-- Witness for C10: with router steps carrying ["customer"] and then
["pricing"], the involved set is ["customer"]. -/
theorem c10_first_router_wins_witness :
    c10R1.step = "router" ∧ c10R1.agents = some ["customer"] ∧
      c10R2.step = "router" ∧ c10R2.agents = some ["pricing"] ∧
      involvedAgents ([] ++ c10R1 :: ([] ++ c10R2 :: [])) = ["customer"] :=
  ⟨rfl, rfl, rfl, rfl,
    c10_first_router_wins [] [] [] c10R1 c10R2 ["customer"] ["pricing"]
      rfl rfl rfl rfl (by simp)⟩

/-- C7 counterexample: a sales step is present with the empty status while
sales is involved; the claim predicts the resolved status is the step
status "", but the renderer resolves "pending" (the empty string is falsy
in JavaScript, so the involvement fallback applies). -/
theorem c7_counterexample :
    (c7Bad.find? fun t => t.step == "sales" ++ "_agent")
        = some ⟨"sales_agent", "query", "", none, none⟩ ∧
      resolvedStatus c7Bad "sales" = "pending" ∧
      ("pending" : String) ≠ "" := by
  decide

/-- C7 amended: the resolved status of a participant is the status of the
first step named participant_agent when such a step is present with a
non-empty status; otherwise (no such step, or its status is the empty
string) it is "pending" when the participant is involved and "inactive"
when not; on the worked example the result is sales=completed,
inventory=pending, customer=inactive, pricing=inactive. -/
theorem c7_resolved_status (steps : List AgentFlowStep) (agent : String) :
    (∀ s : AgentFlowStep,
        (steps.find? fun t => t.step == agent ++ "_agent") = some s →
        s.status ≠ "" → resolvedStatus steps agent = s.status) ∧
    ((∀ s : AgentFlowStep,
        (steps.find? fun t => t.step == agent ++ "_agent") = some s →
          s.status = "") →
      resolvedStatus steps agent
        = if (involvedAgents steps).contains agent then "pending"
          else "inactive") ∧
    (resolvedStatus c7Example "sales" = "completed" ∧
      resolvedStatus c7Example "inventory" = "pending" ∧
      resolvedStatus c7Example "customer" = "inactive" ∧
      resolvedStatus c7Example "pricing" = "inactive") := by
  refine ⟨?_, ?_, by decide⟩
  · intro s hfind hs
    unfold resolvedStatus
    rw [hfind]
    simp [hs]
  · intro h
    unfold resolvedStatus
    cases hfind : steps.find? fun t => t.step == agent ++ "_agent" with
    | none => simp
    | some s => simp [h s hfind]

/-- Witness for C7 amended: on the worked example the sales step is present
with non-empty status "completed", and the resolved status is exactly
"completed". -/
theorem c7_resolved_status_witness :
    (c7Example.find? fun t => t.step == "sales" ++ "_agent")
        = some ⟨"sales_agent", "query", "completed", none, none⟩ ∧
      ("completed" : String) ≠ "" ∧
      resolvedStatus c7Example "sales" = "completed" :=
  ⟨by decide, by decide,
    (c7_resolved_status c7Example "sales").1
      ⟨"sales_agent", "query", "completed", none, none⟩ (by decide) (by decide)⟩

/-- C5 counterexample: a sales step with the unrecognized status "running"
is not rendered identically to one resolved "inactive": it keeps the sales
background color and shows no glyph, while an inactive participant has no
background color and shows its letter glyph. -/
theorem c5_counterexample :
    resolvedStatus c5Input "sales" = "running" ∧
      ("running"
          ∉ (["pending", "completed", "denied", "inactive"] : List String)) ∧
      renderAgent c5Input "sales" ≠ renderStatusBadge "sales" "inactive" := by
  decide

/-- C5 amended: a resolved status outside the four enumerated values falls
back to the inactive style class, but is not rendered identically to
"inactive": it keeps the participant color as background (where "inactive"
has none) and renders no glyph (where "inactive" renders the letter
glyph). -/
theorem c5_unknown_status_fallback (steps : List AgentFlowStep)
    (agent : String) (hmem : agent ∈ fixedAgents)
    (h : resolvedStatus steps agent
        ∉ (["pending", "completed", "denied", "inactive"] : List String)) :
    renderAgent steps agent
        = ⟨agentStyleClass "inactive", agentColors agent, none⟩ ∧
      renderAgent steps agent ≠ renderStatusBadge agent "inactive" := by
  simp only [List.mem_cons, List.not_mem_nil, or_false, not_or] at h
  obtain ⟨hp, hc, hd, hi⟩ := h
  have e1 : (resolvedStatus steps agent == "pending") = false := by
    simp [hp]
  have e2 : (resolvedStatus steps agent == "completed") = false := by
    simp [hc]
  have e3 : (resolvedStatus steps agent == "denied") = false := by
    simp [hd]
  have e4 : (resolvedStatus steps agent == "inactive") = false := by
    simp [hi]
  have hmain : renderAgent steps agent
      = ⟨agentStyleClass "inactive", agentColors agent, none⟩ := by
    unfold renderAgent renderStatusBadge agentStyleClass agentBackgroundColor
      agentIcon
    rw [e1, e2, e3, e4]
    simp
  refine ⟨hmain, ?_⟩
  rw [hmain]
  simp only [fixedAgents, List.mem_cons, List.not_mem_nil, or_false] at hmem
  rcases hmem with rfl | rfl | rfl | rfl <;> decide

/-- Witness for C5 amended: the sales participant with resolved status
"running" renders with the inactive style class, the sales color and no
glyph, differing from an inactive rendering. -/
theorem c5_unknown_status_fallback_witness :
    ("sales" ∈ fixedAgents) ∧
      (resolvedStatus c5Input "sales"
          ∉ (["pending", "completed", "denied", "inactive"] : List String)) ∧
      (renderAgent c5Input "sales"
          = ⟨agentStyleClass "inactive", agentColors "sales", none⟩ ∧
        renderAgent c5Input "sales" ≠ renderStatusBadge "sales" "inactive") :=
  ⟨by decide, by decide,
    c5_unknown_status_fallback c5Input "sales" (by decide) (by decide)⟩

/-- C8: the terminal response stage is rendered with the completed class if
and only if some step of the full (unfiltered) input sequence has
identifier "generate_response" and status "completed"; on every other
input it carries the muted class. -/
theorem c8_response_stage (steps : List AgentFlowStep) :
    (responseClass steps = "bg-success-green text-white"
        ↔ ∃ s ∈ steps, s.step = "generate_response" ∧ s.status = "completed") ∧
      (responseClass steps = "bg-gray-200 text-gray-400"
        ↔ ¬ ∃ s ∈ steps,
            s.step = "generate_response" ∧ s.status = "completed") := by
  have hb : responseCompleted steps = true
      ↔ ∃ s ∈ steps, s.step = "generate_response" ∧ s.status = "completed" := by
    unfold responseCompleted
    rw [List.any_eq_true]
    constructor
    · rintro ⟨s, hs, hp⟩
      simp only [Bool.and_eq_true, beq_iff_eq] at hp
      exact ⟨s, hs, hp⟩
    · rintro ⟨s, hs, h1, h2⟩
      exact ⟨s, hs, by simp [h1, h2]⟩
  have hne : ("bg-success-green text-white" : String)
      ≠ "bg-gray-200 text-gray-400" := by decide
  unfold responseClass
  by_cases hcc : responseCompleted steps = true
  · rw [if_pos hcc]
    exact ⟨⟨fun _ => hb.mp hcc, fun _ => rfl⟩,
           ⟨fun heq => absurd heq hne, fun hnex => absurd (hb.mp hcc) hnex⟩⟩
  · rw [if_neg hcc]
    have hnex : ¬ ∃ s ∈ steps,
        s.step = "generate_response" ∧ s.status = "completed" :=
      fun he => hcc (hb.mpr he)
    exact ⟨⟨fun heq => absurd heq.symm hne, fun he => absurd he hnex⟩,
           ⟨fun _ => hnex, fun _ => rfl⟩⟩

/-- Witness for C8: on a sequence containing a completed generate_response
step the response stage carries the completed class. -/
theorem c8_response_stage_witness :
    responseClass c8Input = "bg-success-green text-white"
      ↔ ∃ s ∈ c8Input, s.step = "generate_response" ∧ s.status = "completed" :=
  (c8_response_stage c8Input).1

/-- C9: the Agent Flow Renderer is a pure function of its input step
sequence: the full derived view (involved set, the four participant badges
in display order, and the response stage class) is computed by the total
function agentFlowView, so equal input sequences always yield identical
rendered output, with no side effects, input/output, or network access in
the model. -/
theorem c9_pure_deterministic (s1 s2 : List AgentFlowStep) (h : s1 = s2) :
    agentFlowView s1 = agentFlowView s2 := by
  rw [h]

/-- Witness for C9: two invocations on the same concrete run agree. -/
theorem c9_pure_deterministic_witness :
    c9Input = c9Input ∧ agentFlowView c9Input = agentFlowView c9Input :=
  ⟨rfl, c9_pure_deterministic c9Input c9Input rfl⟩
